import Mathlib

/-!
Shallow embedding of the QuantumLink backend (src/api/index.js): an Express
app with four route handlers over a Postgres pool.  The datastore is modelled
as explicit state: the three tables as lists of rows, a `fails` flag meaning
"the query raises", and a `now` timestamp for the health query.  Each handler
is translated into a pure Lean function from that state and the parsed
request parameters to an HTTP response.
-/

namespace QuantumLink

/-- A JavaScript value as it appears in a parsed JSON request body.
    Destructuring a missing key yields `undefined`. -/
inductive JSValue where
  | undefined : JSValue
  | null : JSValue
  | bool : Bool → JSValue
  | num : Int → JSValue
  | str : String → JSValue
deriving DecidableEq, Repr

/-- JavaScript truthiness, as tested by `!externalAccountId || !email`. -/
def JSValue.truthy : JSValue → Bool
  | .undefined => false
  | .null => false
  | .bool b => b
  | .num n => n != 0
  | .str s => s != ""

/-- How node-postgres serializes a bound parameter value into the SQL
    comparison value.  Only truthy values ever reach the query in this code. -/
def JSValue.asParam : JSValue → String
  | .undefined => ""
  | .null => ""
  | .bool b => if b then "true" else "false"
  | .num n => toString n
  | .str s => s

/-- A row of the `external_warranties` table: the `serial_number` lookup key
    plus the remaining columns, kept verbatim as column-name/value pairs. -/
structure WarrantyRow where
  serial_number : String
  otherCols : List (String × String)
deriving DecidableEq, Repr

/-- A row of the `external_customers` table.  The four columns named in the
    handler's SELECT projection, plus any further columns of the table. -/
structure CustomerRow where
  customer_external_id : String
  full_name : String
  email : String
  account_status : String
  otherCols : List (String × String)
deriving DecidableEq, Repr

/-- The fixed four-field projection
    `SELECT customer_external_id, full_name, email, account_status`. -/
structure CustomerProj where
  customer_external_id : String
  full_name : String
  email : String
  account_status : String
deriving DecidableEq, Repr

def CustomerRow.proj (r : CustomerRow) : CustomerProj :=
  ⟨r.customer_external_id, r.full_name, r.email, r.account_status⟩

/-- A row of the `parts_pricing` table: the five columns named in the quote
    handler's SELECT projection, plus any further columns of the table. -/
structure PricingRow where
  part_id : String
  part_name : String
  base_price : String
  stock_quantity : Int
  compatibility_notes : String
  otherCols : List (String × String)
deriving DecidableEq, Repr

/-- The fixed five-field projection
    `SELECT part_id, part_name, base_price, stock_quantity, compatibility_notes`. -/
structure QuoteProj where
  part_id : String
  part_name : String
  base_price : String
  stock_quantity : Int
  compatibility_notes : String
deriving DecidableEq, Repr

def PricingRow.proj (r : PricingRow) : QuoteProj :=
  ⟨r.part_id, r.part_name, r.base_price, r.stock_quantity, r.compatibility_notes⟩

/-- The state of the external datastore as seen by one query through the
    pool: the three tables, the timestamp `SELECT NOW()` would return, and
    whether the query raises (connection/auth/query failure). -/
structure Db where
  warranties : List WarrantyRow
  customers : List CustomerRow
  parts : List PricingRow
  now : Int
  fails : Bool
deriving DecidableEq, Repr

/-- The JSON body of a response, one constructor per body shape the four
    handlers can produce. -/
inductive Body where
  | errorMsg : String → Body
  | health : String → Int → Body
  | warrantyRow : WarrantyRow → Body
  | verifyFail : String → Body
  | verifyOk : CustomerProj → Body
  | quoteRow : QuoteProj → Body
deriving DecidableEq, Repr

/-- An HTTP response: status code and JSON body.  `res.json(x)` with no
    explicit status sends 200. -/
structure Response where
  status : Nat
  body : Body
deriving DecidableEq, Repr

/-- The `db_time` field of a health response body, when present. -/
def Response.dbTime : Response → Option Int
  | ⟨_, .health _ t⟩ => some t
  | _ => none

/-- GET /api/health: runs `SELECT NOW()`; on success answers 200 with the
    fixed status string and the returned timestamp, on query error 500. -/
def healthHandler (db : Db) : Response :=
  if db.fails then
    ⟨500, .errorMsg "Failed to connect to Neon."⟩
  else
    ⟨200, .health "QuantumLink API is connected to Neon Cloud!" db.now⟩

/-- GET /api/warranty/:serialNumber: `SELECT * FROM external_warranties
    WHERE serial_number = $1` with the path segment bound as `$1`; zero rows
    gives 404, otherwise 200 with `result.rows[0]`, a raised query 500. -/
def warrantyHandler (db : Db) (serialNumber : String) : Response :=
  if db.fails then
    ⟨500, .errorMsg "Internal server error while fetching warranty."⟩
  else
    let rows := db.warranties.filter (fun r => r.serial_number == serialNumber)
    match rows with
    | [] => ⟨404, .errorMsg "Warranty not found for this serial number."⟩
    | r :: _ => ⟨200, .warrantyRow r⟩

/-- Whether a customer row matches both bound parameters of the verify-user
    query: `WHERE customer_external_id = $1 AND email = $2`. -/
def customerMatches (accId email : String) (r : CustomerRow) : Bool :=
  r.customer_external_id == accId && r.email == email

/-- POST /api/verify-user: destructures `externalAccountId` and `email` from
    the JSON body; if either is falsy answers 400 before any query; otherwise
    queries `external_customers` with both values bound; zero rows gives 401,
    otherwise 200 with the projected `result.rows[0]`, a raised query 500. -/
def verifyUserHandler (db : Db) (externalAccountId email : JSValue) : Response :=
  if !externalAccountId.truthy || !email.truthy then
    ⟨400, .errorMsg "Missing required fields: externalAccountId or email."⟩
  else if db.fails then
    ⟨500, .errorMsg "Internal server error during user verification."⟩
  else
    let rows := db.customers.filter (customerMatches externalAccountId.asParam email.asParam)
    match rows with
    | [] => ⟨401, .verifyFail "Identity verification failed. No match found in external system."⟩
    | r :: _ => ⟨200, .verifyOk r.proj⟩

/-- GET /api/quote/:partId: `SELECT part_id, part_name, base_price,
    stock_quantity, compatibility_notes FROM parts_pricing WHERE part_id = $1`
    with the path segment bound; zero rows gives 404, otherwise 200 with the
    projected `result.rows[0]`, a raised query 500. -/
def quoteHandler (db : Db) (partId : String) : Response :=
  if db.fails then
    ⟨500, .errorMsg "Internal server error while fetching repair quote."⟩
  else
    let rows := db.parts.filter (fun r => r.part_id == partId)
    match rows with
    | [] => ⟨404, .errorMsg "Part not found in inventory."⟩
    | r :: _ => ⟨200, .quoteRow r.proj⟩

/-- HTTP methods used by the app. -/
inductive Method where
  | GET : Method
  | POST : Method
deriving DecidableEq, Repr

/-- The handlers registered on the Express app, one per route registration
    in source order. -/
inductive Route where
  | health : Route
  | warranty : Route
  | verifyUser : Route
  | quote : Route
deriving DecidableEq, Repr

/-- The list of route registrations made on the app, in source order. -/
def registeredRoutes : List Route :=
  [.health, .warranty, .verifyUser, .quote]

/-- Express routing: maps a method and a path (split into segments) to the
    registered handler whose pattern matches, if any.  `:serialNumber` and
    `:partId` each match exactly one path segment. -/
def routeOf : Method → List String → Option Route
  | .GET, ["api", "health"] => some .health
  | .GET, ["api", "warranty", _] => some .warranty
  | .POST, ["api", "verify-user"] => some .verifyUser
  | .GET, ["api", "quote", _] => some .quote
  | _, _ => none

/-! Concrete sample datastore states used by witnesses and counterexamples. -/

def wRow : WarrantyRow :=
  ⟨"SN-1", [("coverage", "standard"), ("expires", "2027-01-01")]⟩

def adaRow : CustomerRow :=
  ⟨"CUST-001", "Ada Lovelace", "ada@example.com", "active", [("tier", "gold")]⟩

def boltRow : PricingRow :=
  ⟨"P-100", "Flux Capacitor Bolt", "19.99", 12, "Fits all models", []⟩

/-- A healthy datastore with one row in each table. -/
def dbW : Db := ⟨[wRow], [adaRow], [boltRow], 42, false⟩

/-- A datastore whose queries raise. -/
def dbFail : Db := ⟨[], [], [], 0, true⟩

/-- A healthy datastore reporting timestamp 5. -/
def dbT5 : Db := ⟨[], [], [], 5, false⟩

/-- A healthy datastore reporting timestamp 3. -/
def dbT3 : Db := ⟨[], [], [], 3, false⟩

/-- The SQL-metacharacter probe string from the spec, written with escaped
    quote characters. -/
def injectionProbe : String := "\x27 OR \x271\x27=\x271"

/-! Helper lemmas. -/

/-- The head of a filtered list is the first element satisfying the
    predicate: `result.rows[0]` of an equality-filtered query is the first
    matching row in table order. -/
theorem head_filter_eq_find {α : Type} (p : α → Bool) (l : List α) :
    (l.filter p).head? = l.find? p := by
  induction l with
  | nil => rfl
  | cons a t ih =>
    by_cases h : p a
    · rw [List.find?_cons_of_pos _ h]
      simp [List.filter_cons, h]
    · rw [List.find?_cons_of_neg _ h]
      simp [List.filter_cons, h, ih]

/-- When the query succeeds and no warranty row carries the requested serial
    number, the lookup answers 404. -/
theorem warranty_nomatch_404 (db : Db) (s : String) (hf : db.fails = false)
    (hnone : ∀ r ∈ db.warranties, r.serial_number ≠ s) :
    warrantyHandler db s
      = ⟨404, .errorMsg "Warranty not found for this serial number."⟩ := by
  have hfil : db.warranties.filter (fun r => r.serial_number == s) = [] := by
    rw [List.filter_eq_nil_iff]
    intro r hrm
    simpa using hnone r hrm
  simp [warrantyHandler, hf, hfil]

/-- When the query succeeds and no pricing row carries the requested part
    id, the quote lookup answers 404. -/
theorem quote_nomatch_404 (db : Db) (p : String) (hf : db.fails = false)
    (hnone : ∀ r ∈ db.parts, r.part_id ≠ p) :
    quoteHandler db p = ⟨404, .errorMsg "Part not found in inventory."⟩ := by
  have hfil : db.parts.filter (fun r => r.part_id == p) = [] := by
    rw [List.filter_eq_nil_iff]
    intro r hrm
    simpa using hnone r hrm
  simp [quoteHandler, hf, hfil]

/-! Claim theorems. -/

/-- C1: for a verify-user request whose two fields are present (nonempty
    strings), the handler answers 500 with the generic verification error
    when the query raises; otherwise 401 with verified false and the fixed
    message when no customer row matches both fields exactly, and 200 with
    verified true and the four-field projection of the first matching row
    when one does. -/
theorem verify_user_result_policy (db : Db) (a e : String)
    (ha : a ≠ "") (he : e ≠ "") :
    (db.fails = true →
      verifyUserHandler db (.str a) (.str e)
        = ⟨500, .errorMsg "Internal server error during user verification."⟩)
    ∧ (db.fails = false →
        ((∀ r ∈ db.customers, ¬(r.customer_external_id = a ∧ r.email = e)) →
          verifyUserHandler db (.str a) (.str e)
            = ⟨401, .verifyFail
                "Identity verification failed. No match found in external system."⟩)
        ∧ ∀ r, db.customers.find? (customerMatches a e) = some r →
            verifyUserHandler db (.str a) (.str e) = ⟨200, .verifyOk r.proj⟩) := by
  have hta : (JSValue.str a).truthy = true := by simp [JSValue.truthy, ha]
  have hte : (JSValue.str e).truthy = true := by simp [JSValue.truthy, he]
  refine ⟨fun hf => ?_, fun hf => ⟨fun hnone => ?_, fun r hr => ?_⟩⟩
  · simp [verifyUserHandler, hta, hte, hf]
  · have hfil : db.customers.filter (customerMatches a e) = [] := by
      rw [List.filter_eq_nil_iff]
      intro r hrm
      have hne := hnone r hrm
      simp only [customerMatches, Bool.and_eq_true, beq_iff_eq, not_and]
      intro h1 h2
      exact hne ⟨h1, h2⟩
    simp [verifyUserHandler, hta, hte, hf, JSValue.asParam, hfil]
  · have hh : (db.customers.filter (customerMatches a e)).head? = some r := by
      rw [head_filter_eq_find]; exact hr
    cases hfil : db.customers.filter (customerMatches a e) with
    | nil => rw [hfil] at hh; exact absurd hh (by simp)
    | cons r0 t =>
      rw [hfil] at hh
      have hr0 : r0 = r := by simpa using hh
      subst hr0
      simp [verifyUserHandler, hta, hte, hf, JSValue.asParam, hfil]

/-- C1 witness: on the sample datastore, a matching pair verifies with 200
    and a non-matching pair is refused with 401. -/
theorem verify_user_result_policy_witness :
    verifyUserHandler dbW (.str "CUST-001") (.str "ada@example.com")
      = ⟨200, .verifyOk ⟨"CUST-001", "Ada Lovelace", "ada@example.com", "active"⟩⟩
    ∧ verifyUserHandler dbW (.str "CUST-001") (.str "eve@example.com")
      = ⟨401, .verifyFail
          "Identity verification failed. No match found in external system."⟩ := by
  constructor
  · exact ((verify_user_result_policy dbW "CUST-001" "ada@example.com"
      (by decide) (by decide)).2 rfl).2 adaRow (by decide)
  · exact ((verify_user_result_policy dbW "CUST-001" "eve@example.com"
      (by decide) (by decide)).2 rfl).1 (by decide)

/-- C2: when either verify-user field is missing or falsy, the handler
    answers 400 with the fixed error message, and the response does not
    depend on the datastore state at all. -/
theorem verify_user_missing_fields (db db2 : Db) (a e : JSValue)
    (h : a.truthy = false ∨ e.truthy = false) :
    verifyUserHandler db a e
      = ⟨400, .errorMsg "Missing required fields: externalAccountId or email."⟩
    ∧ verifyUserHandler db a e = verifyUserHandler db2 a e := by
  rcases h with h | h <;> simp [verifyUserHandler, h]

/-- C2 witness: a request with `email` absent (undefined) is refused with
    400 both on the healthy datastore and on the failing one. -/
theorem verify_user_missing_fields_witness :
    verifyUserHandler dbW (.str "CUST-001") .undefined
      = ⟨400, .errorMsg "Missing required fields: externalAccountId or email."⟩
    ∧ verifyUserHandler dbW (.str "CUST-001") .undefined
      = verifyUserHandler dbFail (.str "CUST-001") .undefined :=
  verify_user_missing_fields dbW dbFail (.str "CUST-001") .undefined (Or.inr rfl)

/-- C10: a verify-user field that is present but falsy — the empty string,
    the number 0, the boolean false, or null — is refused with 400 for every
    datastore state, in either position; in particular an empty-string email
    never reaches the 401/200 match logic. -/
theorem verify_user_falsy_values (db : Db) (v : JSValue) :
    (verifyUserHandler db (.str "") v
      = ⟨400, .errorMsg "Missing required fields: externalAccountId or email."⟩)
    ∧ (verifyUserHandler db v (.str "")
      = ⟨400, .errorMsg "Missing required fields: externalAccountId or email."⟩)
    ∧ (verifyUserHandler db (.num 0) v
      = ⟨400, .errorMsg "Missing required fields: externalAccountId or email."⟩)
    ∧ (verifyUserHandler db v (.num 0)
      = ⟨400, .errorMsg "Missing required fields: externalAccountId or email."⟩)
    ∧ (verifyUserHandler db (.bool false) v
      = ⟨400, .errorMsg "Missing required fields: externalAccountId or email."⟩)
    ∧ (verifyUserHandler db v (.bool false)
      = ⟨400, .errorMsg "Missing required fields: externalAccountId or email."⟩)
    ∧ (verifyUserHandler db .null v
      = ⟨400, .errorMsg "Missing required fields: externalAccountId or email."⟩)
    ∧ (verifyUserHandler db v .null
      = ⟨400, .errorMsg "Missing required fields: externalAccountId or email."⟩)
    ∧ (verifyUserHandler db v (.str "")).status ≠ 401
    ∧ (verifyUserHandler db v (.str "")).status ≠ 200 := by
  refine ⟨?_, ?_, ?_, ?_, ?_, ?_, ?_, ?_, ?_, ?_⟩ <;>
    simp [verifyUserHandler, JSValue.truthy]

/-- C10 witness: a present-but-empty externalAccountId together with an
    absent email is refused with 400 on the healthy sample datastore. -/
theorem verify_user_falsy_values_witness :
    verifyUserHandler dbW (.str "") .undefined
      = ⟨400, .errorMsg "Missing required fields: externalAccountId or email."⟩ :=
  (verify_user_falsy_values dbW .undefined).1

/-- C3: the warranty lookup answers 500 with the generic warranty error when
    the query raises; otherwise 404 with the fixed message when no warranty
    row has the requested serial number, and 200 with the first matching row
    verbatim when one exists. -/
theorem warranty_result_policy (db : Db) (s : String) :
    (db.fails = true →
      warrantyHandler db s
        = ⟨500, .errorMsg "Internal server error while fetching warranty."⟩)
    ∧ (db.fails = false →
        ((∀ r ∈ db.warranties, r.serial_number ≠ s) →
          warrantyHandler db s
            = ⟨404, .errorMsg "Warranty not found for this serial number."⟩)
        ∧ ∀ r, db.warranties.find? (fun r => r.serial_number == s) = some r →
            warrantyHandler db s = ⟨200, .warrantyRow r⟩) := by
  refine ⟨fun hf => ?_, fun hf => ⟨warranty_nomatch_404 db s hf, fun r hr => ?_⟩⟩
  · simp [warrantyHandler, hf]
  · have hh : (db.warranties.filter (fun r => r.serial_number == s)).head? = some r := by
      rw [head_filter_eq_find]; exact hr
    cases hfil : db.warranties.filter (fun r => r.serial_number == s) with
    | nil => rw [hfil] at hh; exact absurd hh (by simp)
    | cons r0 t =>
      rw [hfil] at hh
      have hr0 : r0 = r := by simpa using hh
      subst hr0
      simp [warrantyHandler, hf, hfil]

/-- C3 witness: on the sample datastore, the present serial number returns
    its row with 200 and an absent one returns 404. -/
theorem warranty_result_policy_witness :
    warrantyHandler dbW "SN-1" = ⟨200, .warrantyRow wRow⟩
    ∧ warrantyHandler dbW "SN-MISSING"
      = ⟨404, .errorMsg "Warranty not found for this serial number."⟩ := by
  constructor
  · exact ((warranty_result_policy dbW "SN-1").2 rfl).2 wRow (by decide)
  · exact ((warranty_result_policy dbW "SN-MISSING").2 rfl).1 (by decide)

/-- C4: the quote lookup answers 200 with exactly the five-field projection
    of the first matching pricing row when the part id is present, 404 with
    the fixed message when it is absent, and 500 with the generic quote error
    when the query raises. -/
theorem quote_result_policy (db : Db) (p : String) :
    (db.fails = true →
      quoteHandler db p
        = ⟨500, .errorMsg "Internal server error while fetching repair quote."⟩)
    ∧ (db.fails = false →
        ((∀ r ∈ db.parts, r.part_id ≠ p) →
          quoteHandler db p = ⟨404, .errorMsg "Part not found in inventory."⟩)
        ∧ ∀ r, db.parts.find? (fun r => r.part_id == p) = some r →
            quoteHandler db p = ⟨200, .quoteRow r.proj⟩) := by
  refine ⟨fun hf => ?_, fun hf => ⟨quote_nomatch_404 db p hf, fun r hr => ?_⟩⟩
  · simp [quoteHandler, hf]
  · have hh : (db.parts.filter (fun r => r.part_id == p)).head? = some r := by
      rw [head_filter_eq_find]; exact hr
    cases hfil : db.parts.filter (fun r => r.part_id == p) with
    | nil => rw [hfil] at hh; exact absurd hh (by simp)
    | cons r0 t =>
      rw [hfil] at hh
      have hr0 : r0 = r := by simpa using hh
      subst hr0
      simp [quoteHandler, hf, hfil]

/-- C4 witness: on the sample datastore, the present part id returns its
    five-field projection with 200 and an absent id returns 404. -/
theorem quote_result_policy_witness :
    quoteHandler dbW "P-100"
      = ⟨200, .quoteRow ⟨"P-100", "Flux Capacitor Bolt", "19.99", 12, "Fits all models"⟩⟩
    ∧ quoteHandler dbW "P-404" = ⟨404, .errorMsg "Part not found in inventory."⟩ := by
  constructor
  · exact ((quote_result_policy dbW "P-100").2 rfl).2 boltRow (by decide)
  · exact ((quote_result_policy dbW "P-404").2 rfl).1 (by decide)

/-- C5: the path parameter is bound, never interpolated: lookup semantics is
    exact whole-string equality of the stored key against the literal
    parameter value.  If no row's key equals the exact string the response is
    404, and a 200 response only ever carries a row whose key equals the
    parameter. -/
theorem parameter_binding_literal (db : Db) (s : String) (hf : db.fails = false) :
    ((∀ r ∈ db.warranties, r.serial_number ≠ s) →
      warrantyHandler db s = ⟨404, .errorMsg "Warranty not found for this serial number."⟩)
    ∧ (∀ r, warrantyHandler db s = ⟨200, .warrantyRow r⟩ → r.serial_number = s)
    ∧ ((∀ r ∈ db.parts, r.part_id ≠ s) →
      quoteHandler db s = ⟨404, .errorMsg "Part not found in inventory."⟩)
    ∧ (∀ q, quoteHandler db s = ⟨200, .quoteRow q⟩ →
        ∃ r ∈ db.parts, r.part_id = s ∧ q = r.proj) := by
  refine ⟨warranty_nomatch_404 db s hf, fun r h200 => ?_,
    quote_nomatch_404 db s hf, fun q h200 => ?_⟩
  · cases hfil : db.warranties.filter (fun r => r.serial_number == s) with
    | nil => simp [warrantyHandler, hf, hfil] at h200
    | cons r0 t =>
      simp only [warrantyHandler, hf, Bool.false_eq_true, if_false, hfil] at h200
      have hmem : r0 ∈ db.warranties.filter (fun x => x.serial_number == s) := by
        rw [hfil]; exact List.mem_cons_self r0 t
      have hpred := (List.mem_filter.mp hmem).2
      have hr0 : r0 = r := by simpa using h200
      subst hr0
      simpa using hpred
  · cases hfil : db.parts.filter (fun r => r.part_id == s) with
    | nil => simp [quoteHandler, hf, hfil] at h200
    | cons r0 t =>
      simp only [quoteHandler, hf, Bool.false_eq_true, if_false, hfil] at h200
      have hmem : r0 ∈ db.parts.filter (fun x => x.part_id == s) := by
        rw [hfil]; exact List.mem_cons_self r0 t
      have hpred : r0.part_id = s := by simpa using (List.mem_filter.mp hmem).2
      have hq : q = r0.proj := by simpa using h200.symm
      exact ⟨r0, (List.mem_filter.mp hmem).1, hpred, hq⟩

/-- C5 witness: the SQL-metacharacter probe string matches no row of the
    sample datastore literally, so both lookups answer 404 rather than
    reflecting unrelated rows. -/
theorem parameter_binding_literal_witness :
    warrantyHandler dbW injectionProbe
      = ⟨404, .errorMsg "Warranty not found for this serial number."⟩
    ∧ quoteHandler dbW injectionProbe
      = ⟨404, .errorMsg "Part not found in inventory."⟩ := by
  constructor
  · exact (parameter_binding_literal dbW injectionProbe rfl).1 (by decide)
  · exact (parameter_binding_literal dbW injectionProbe rfl).2.2.1 (by decide)

/-- C6 counterexample: when the health query raises, the body's error string
    is "Failed to connect to Neon.", not "Failed to connect" as the claim
    states it exactly. -/
theorem health_error_body_counterexample :
    dbFail.fails = true
    ∧ healthHandler dbFail ≠ ⟨500, .errorMsg "Failed to connect"⟩
    ∧ healthHandler dbFail = ⟨500, .errorMsg "Failed to connect to Neon."⟩ := by
  refine ⟨rfl, ?_, by simp [healthHandler, dbFail]⟩
  simp [healthHandler, dbFail]

/-- C6 (amended): when the health query raises the handler answers 500 with
    error string "Failed to connect to Neon."; on success it answers 200
    with the fixed status string and the timestamp from the query. -/
theorem health_result_policy (db : Db) :
    (db.fails = true →
      healthHandler db = ⟨500, .errorMsg "Failed to connect to Neon."⟩)
    ∧ (db.fails = false →
      healthHandler db
        = ⟨200, .health "QuantumLink API is connected to Neon Cloud!" db.now⟩) := by
  constructor <;> intro hf <;> simp [healthHandler, hf]

/-- C6 witness: the failing datastore yields the 500 body and the healthy
    sample datastore yields the 200 body with its timestamp. -/
theorem health_result_policy_witness :
    healthHandler dbFail = ⟨500, .errorMsg "Failed to connect to Neon."⟩
    ∧ healthHandler dbW
      = ⟨200, .health "QuantumLink API is connected to Neon Cloud!" 42⟩ :=
  ⟨(health_result_policy dbFail).1 rfl, (health_result_policy dbW).2 rfl⟩

/-- C7 counterexample: the app registers four handlers, not five. -/
theorem router_five_handlers_counterexample :
    registeredRoutes.length ≠ 5 ∧ registeredRoutes.length = 4 := by
  constructor <;> decide

/-- C7 (amended): the router maps a method/path pair to one of exactly four
    registered handlers; the registrations are distinct, every registered
    handler is reachable at its method and path, and dispatch is
    deterministic — a matching request goes to that handler and no other. -/
theorem router_dispatch :
    registeredRoutes.length = 4
    ∧ registeredRoutes.Nodup
    ∧ (∀ r : Route, r ∈ registeredRoutes)
    ∧ (∀ m p r₁ r₂, routeOf m p = some r₁ → routeOf m p = some r₂ → r₁ = r₂)
    ∧ routeOf .GET ["api", "health"] = some .health
    ∧ routeOf .GET ["api", "warranty", "SN-1"] = some .warranty
    ∧ routeOf .POST ["api", "verify-user"] = some .verifyUser
    ∧ routeOf .GET ["api", "quote", "P-100"] = some .quote := by
  refine ⟨rfl, by decide, fun r => by cases r <;> decide,
    fun m p r₁ r₂ h₁ h₂ => ?_, rfl, rfl, rfl, rfl⟩
  rw [h₁] at h₂
  exact Option.some.inj h₂

/-- C7 witness: dispatch determinism at a concrete request — the health
    route resolves to the health handler and to no other. -/
theorem router_dispatch_witness :
    Route.health = Route.health ∧ registeredRoutes.length = 4 :=
  ⟨router_dispatch.2.2.2.1 .GET ["api", "health"] .health .health rfl rfl,
    router_dispatch.1⟩

/-- C8: the three GET handlers are deterministic functions of the parameters
    and the datastore state: two invocations against the same unchanged
    state produce identical responses. -/
theorem get_handlers_deterministic (db db2 : Db) (s p : String) (h : db = db2) :
    healthHandler db = healthHandler db2
    ∧ warrantyHandler db s = warrantyHandler db2 s
    ∧ quoteHandler db p = quoteHandler db2 p := by
  subst h
  exact ⟨rfl, rfl, rfl⟩

/-- C8 witness: repeating each GET against the unchanged sample datastore
    yields identical responses. -/
theorem get_handlers_deterministic_witness :
    healthHandler dbW = healthHandler dbW
    ∧ warrantyHandler dbW "SN-1" = warrantyHandler dbW "SN-1"
    ∧ quoteHandler dbW "P-100" = quoteHandler dbW "P-100" :=
  get_handlers_deterministic dbW dbW "SN-1" "P-100" rfl

/-- C9 counterexample: two successive successful health calls can report a
    decreasing timestamp — the handler merely echoes the datastore clock, so
    db_time 5 followed by db_time 3 is possible and 5 ≤ 3 fails. -/
theorem health_dbtime_counterexample :
    (healthHandler dbT5).status = 200
    ∧ (healthHandler dbT3).status = 200
    ∧ (healthHandler dbT5).dbTime = some 5
    ∧ (healthHandler dbT3).dbTime = some 3
    ∧ ¬(5 : Int) ≤ 3 := by
  refine ⟨rfl, rfl, rfl, rfl, by decide⟩

/-- C9 (amended): the handler returns the datastore timestamp verbatim, so
    across successive successful health calls the reported db_time values
    are non-decreasing whenever the datastore's clock values are. -/
theorem health_dbtime_monotone (db₁ db₂ : Db)
    (h₁ : db₁.fails = false) (h₂ : db₂.fails = false)
    (hle : db₁.now ≤ db₂.now) :
    ∃ t₁ t₂, (healthHandler db₁).dbTime = some t₁
      ∧ (healthHandler db₂).dbTime = some t₂ ∧ t₁ ≤ t₂ := by
  refine ⟨db₁.now, db₂.now, ?_, ?_, hle⟩ <;>
    simp [healthHandler, Response.dbTime, h₁, h₂]

/-- C9 witness: two successful calls whose datastore clocks read 3 then 5
    report db_time 3 then 5, non-decreasing. -/
theorem health_dbtime_monotone_witness :
    ∃ t₁ t₂, (healthHandler dbT3).dbTime = some t₁
      ∧ (healthHandler dbT5).dbTime = some t₂ ∧ t₁ ≤ t₂ :=
  health_dbtime_monotone dbT3 dbT5 rfl rfl (by decide)

end QuantumLink
